import Mathlib

/-!
pgx-transactor: transaction scoping over a pgx pool

A shallow embedding of the Go package (`tx_context.go`, `query_runner.go`,
`nil_tracer.go`, `pgx_pool.go`, `mocks/transactor.go`, `example/testservice.go`).

Conventions of the embedding

* A Go interface value that may be `nil` is an `Option`; `error` is
  `Option GoError`.
* External collaborators (the pgx pool, transaction handles, tracer back ends,
  the caller's unit of work) are state transformers over an arbitrary world
  state `σ`.  Each call either returns (`Res.ok`) or panics (`Res.panic`).
* Every function of the package returns a `Run`: its outcome, the world state
  it leaves behind, and the list of calls it made itself, in program order, on
  its collaborators.  Calls made by a collaborator internally (for instance by
  the unit of work) are not part of that list.
-/

namespace PgxTransactor

/-! ## Go values -/

/-- Go `error` values that are not nil.  `errTxClosed` is the sentinel
`pgx.ErrTxClosed`; `wrap` is an error whose `Unwrap` yields `inner`. -/
inductive GoError where
  | errTxClosed
  | other (code : Nat)
  | wrap (msg : Nat) (inner : GoError)
  deriving DecidableEq, Repr

/-- The Go `error` interface: `none` is nil. -/
abbrev error := Option GoError

/-- Standard library `errors.Is(err, target)` for a non-nil `err`: walks the
chain of wrapped errors and compares each link with `target`. -/
def errorsIs : GoError → GoError → Bool
  | .wrap msg inner, target =>
      decide (GoError.wrap msg inner = target) || errorsIs inner target
  | e, target => decide (e = target)

/-- A value carried by a panic. -/
inductive PanicVal where
  | nilDeref
  | value (code : Nat)
  deriving DecidableEq, Repr

/-- Outcome of a call: it returns `a`, or it panics. -/
inductive Res (α : Type) where
  | ok (a : α)
  | panic (v : PanicVal)
  deriving DecidableEq, Repr

/-- A dynamic value implementing `pgx.Tx`, identified by the transaction it
stands for. -/
structure TxHandle where
  id : Nat
  deriving DecidableEq, Repr

/-- The interface type `pgx.Tx`: `none` is the nil interface. -/
abbrev Tx := Option TxHandle

/-- A `*pgxpool.Pool`. -/
structure Pool where
  id : Nat
  deriving DecidableEq, Repr

/-- The struct `pgx.TxOptions`; its zero value has every field empty. -/
structure TxOptions where
  IsoLevel : String
  AccessMode : String
  DeferrableMode : String
  BeginQuery : String
  deriving DecidableEq, Repr

/-- The literal `pgx.TxOptions{}`. -/
def TxOptions.zero : TxOptions := ⟨"", "", "", ""⟩

/-! ## Scopes: `context.Context` -/

/-- Keys of context values.  `pgxTxKey` is the unexported `pgxTxKey{}` of
`tx_context.go`; every key of another type is `other`. -/
inductive CtxKey where
  | pgxTxKey
  | other (n : Nat)
  deriving DecidableEq, Repr

/-- A value of type `any` stored in a context. -/
inductive AnyVal where
  | nil
  | tx (h : TxHandle)
  | other (n : Nat)
  deriving DecidableEq, Repr

/-- A `context.Context`: the background context, a `context.WithValue` layer
over a parent, or a cancellation layer (`context.WithCancel` and the like),
which carries no value of its own. -/
inductive Context where
  | background
  | withValue (parent : Context) (key : CtxKey) (val : AnyVal)
  | withCancel (parent : Context)
  deriving DecidableEq, Repr

/-- The method `ctx.Value(key)`: the value of the innermost layer with that
key, nil when there is none. -/
def Context.Value : Context → CtxKey → AnyVal
  | .background, _ => .nil
  | .withValue parent k v, key => if k = key then v else parent.Value key
  | .withCancel parent, key => parent.Value key

/-- Conversion of a `pgx.Tx` interface value to `any`. -/
def Tx.toAny : Tx → AnyVal
  | none => .nil
  | some h => .tx h

/-- The type assertion `v.(pgx.Tx)` in its two-result form: `some h` when it
holds (`ok` is true). -/
def AnyVal.assertTx : AnyVal → Option TxHandle
  | .tx h => some h
  | _ => none

/-- Go `injectTx` of `tx_context.go`:
`return context.WithValue(ctx, pgxTxKey{}, tx)`. -/
def injectTx (ctx : Context) (tx : Tx) : Context :=
  .withValue ctx .pgxTxKey (Tx.toAny tx)

/-- Go `extractTx` of `tx_context.go`:
`if tx, ok := ctx.Value(pgxTxKey{}).(pgx.Tx); ok { return tx }; return nil`. -/
def extractTx (ctx : Context) : Tx :=
  match (ctx.Value .pgxTxKey).assertTx with
  | some h => some h
  | none => none

/-- No layer of the scope was made by `injectTx`: no handle was ever
attached to it. -/
def neverAttached : Context → Bool
  | .background => true
  | .withValue parent k _ => decide (k ≠ CtxKey.pgxTxKey) && neverAttached parent
  | .withCancel parent => neverAttached parent

/-- The scope a derived scope was built from. -/
def Context.parent? : Context → Option Context
  | .background => none
  | .withValue parent _ _ => some parent
  | .withCancel parent => some parent

/-! ## Collaborators -/

/-- The interface `Tracer` of `nil_tracer.go`: the package's own `*NilTracer`
or a tracer supplied by the caller. -/
inductive Tracer where
  | nilTracer
  | ext (id : Nat)
  deriving DecidableEq, Repr

/-- A `func()` returned by `TraceData`: the literal `func() {}` of
`NilTracer.TraceData`, or a closure made by a caller-supplied tracer. -/
inductive Callback where
  | noop
  | ext (id : Nat)
  deriving DecidableEq, Repr

/-- The interface `PgxQueryRunner` as `Runner` produces it: a transaction
handle or the pool. -/
inductive PgxQueryRunner where
  | tx (h : TxHandle)
  | pool (p : Pool)
  deriving DecidableEq, Repr

/-- The interface `PgxTransactionInitiator`: the pool, or another
implementation. -/
inductive PgxTransactionInitiator where
  | pool (p : Pool)
  | ext (id : Nat)
  deriving DecidableEq, Repr

/-- An argument of a statement (`interface{}`). -/
inductive Arg where
  | null
  | int (n : Int)
  | text (s : String)
  deriving DecidableEq, Repr

/-- Driver values kept abstract: `pgconn.CommandTag`, `pgx.Rows`, `pgx.Row`,
`pgx.BatchResults`, `*pgx.Batch`, `pgx.CopyFromSource`. -/
abbrev CommandTag := Nat
abbrev Rows := Nat
abbrev Row := Nat
abbrev BatchResults := Nat
abbrev Batch := Nat
abbrev CopyFromSource := Nat

/-- A `pgx.Identifier`. -/
abbrev Identifier := List String

/-- A call made on a collaborator, with its receiver and arguments. -/
inductive Call where
  | beginTx (txInit : PgxTransactionInitiator) (ctx : Context) (opts : TxOptions)
  | txFunc (ctx : Context)
  | commit (tx : TxHandle) (ctx : Context)
  | rollback (tx : TxHandle) (ctx : Context)
  | traceData (t : Tracer) (request : String)
  | callback (cb : Callback)
  | exec (r : PgxQueryRunner) (ctx : Context) (sql : String) (args : List Arg)
  | query (r : PgxQueryRunner) (ctx : Context) (sql : String) (args : List Arg)
  | queryRow (r : PgxQueryRunner) (ctx : Context) (sql : String) (args : List Arg)
  | begin (r : PgxQueryRunner) (ctx : Context)
  | sendBatch (r : PgxQueryRunner) (ctx : Context) (b : Batch)
  | copyFrom (r : PgxQueryRunner) (ctx : Context) (ident : Identifier)
      (cls : List String) (src : CopyFromSource)
  deriving DecidableEq, Repr

/-- Behaviour of the external collaborators over a world state `σ`: the pgx
pool and its transactions, and the tracers and callbacks supplied by the
caller. -/
structure Driver (σ : Type) where
  BeginTx : PgxTransactionInitiator → Context → TxOptions → σ → Res (Tx × error) × σ
  Commit : TxHandle → Context → σ → Res error × σ
  Rollback : TxHandle → Context → σ → Res error × σ
  Exec : PgxQueryRunner → Context → String → List Arg → σ → Res (CommandTag × error) × σ
  Query : PgxQueryRunner → Context → String → List Arg → σ → Res (Rows × error) × σ
  QueryRow : PgxQueryRunner → Context → String → List Arg → σ → Res Row × σ
  Begin : PgxQueryRunner → Context → σ → Res (Tx × error) × σ
  SendBatch : PgxQueryRunner → Context → Batch → σ → Res BatchResults × σ
  CopyFrom : PgxQueryRunner → Context → Identifier → List String → CopyFromSource → σ →
    Res (Int × error) × σ
  TraceData : Nat → String → σ → Res Callback × σ
  Invoke : Nat → σ → Res Unit × σ

/-- A caller-supplied `func(ctx context.Context) error`. -/
abbrev TxFunc (σ : Type) := Context → σ → Res error × σ

/-- What a function of the package did: its outcome, the world state it left,
and the calls it made itself, in order. -/
structure Run (σ α : Type) where
  res : Res α
  st : σ
  calls : List Call

/-! ## `nil_tracer.go` -/

/-- Go `NewNilTracer`: `return &NilTracer{}`. -/
def NewNilTracer : Tracer := .nilTracer

/-- The method `TraceData` of a `Tracer`.  For the nil tracer it is
`NilTracer.TraceData`: `return func() {}`; a caller-supplied tracer is
dispatched to the driver. -/
def Tracer.TraceData {σ : Type} (d : Driver σ) : Tracer → String → σ → Res Callback × σ
  | .nilTracer, _, s => (.ok .noop, s)
  | .ext i, request, s => d.TraceData i request s

/-- Calling a `func()` obtained from `TraceData`: the body of `func() {}` is
empty; a caller-supplied closure is dispatched to the driver. -/
def Callback.invoke {σ : Type} (d : Driver σ) : Callback → σ → Res Unit × σ
  | .noop, s => (.ok (), s)
  | .ext k, s => d.Invoke k s

/-! ## `pgx_pool.go`, `query_runner.go`: the executor -/

/-- The struct `PgxPool`. -/
structure PgxPool where
  pool : Pool
  tracer : Tracer
  deriving DecidableEq, Repr

/-- Go `NewPgxPool`: `return &PgxPool{pool: p, tracer: NewNilTracer()}`. -/
def NewPgxPool (p : Pool) : PgxPool := { pool := p, tracer := NewNilTracer }

/-- Go `WithTracer`: `e.tracer = tracer; return e`.  The result is the receiver
itself after the assignment. -/
def PgxPool.WithTracer (e : PgxPool) (tracer : Tracer) : PgxPool :=
  { e with tracer := tracer }

/-- Go `Pool`: `return e.pool`. -/
def PgxPool.Pool (e : PgxPool) : Pool := e.pool

/-- Go `Runner` of `query_runner.go`:
`tx := extractTx(ctx); if tx != nil { return tx }; return e.pool`. -/
def PgxPool.Runner (e : PgxPool) (ctx : Context) : PgxQueryRunner :=
  match extractTx ctx with
  | some h => .tx h
  | none => .pool e.pool

/-- A function body of the shape
`spanFinish := e.tracer.TraceData(request); defer spanFinish(); return call`.
A panic of `TraceData` leaves before the `defer` statement; afterwards the
deferred `spanFinish` runs when `call` has returned and also when it has
panicked; the results of `call` are unnamed and fixed before `spanFinish`
runs. -/
def traced {σ α : Type} (d : Driver σ) (e : PgxPool) (request : String)
    (call : Call) (body : σ → Res α × σ) (s : σ) : Run σ α :=
  match e.tracer.TraceData d request s with
  | (.panic v, s1) => ⟨.panic v, s1, [.traceData e.tracer request]⟩
  | (.ok spanFinish, s1) =>
    match body s1 with
    | (r, s2) =>
      match spanFinish.invoke d s2 with
      | (.ok (), s3) => ⟨r, s3, [.traceData e.tracer request, call, .callback spanFinish]⟩
      | (.panic v, s3) =>
        ⟨.panic v, s3, [.traceData e.tracer request, call, .callback spanFinish]⟩

/-- Go `Exec`: `spanFinish := e.tracer.TraceData(sql); defer spanFinish();
return e.Runner(ctx).Exec(ctx, sql, args...)`. -/
def PgxPool.Exec {σ : Type} (d : Driver σ) (e : PgxPool) (ctx : Context) (sql : String)
    (args : List Arg) (s : σ) : Run σ (CommandTag × error) :=
  traced d e sql (.exec (e.Runner ctx) ctx sql args) (d.Exec (e.Runner ctx) ctx sql args) s

/-- Go `Query`: `spanFinish := e.tracer.TraceData(sql); defer spanFinish();
return e.Runner(ctx).Query(ctx, sql, optionsAndArgs...)`. -/
def PgxPool.Query {σ : Type} (d : Driver σ) (e : PgxPool) (ctx : Context) (sql : String)
    (optionsAndArgs : List Arg) (s : σ) : Run σ (Rows × error) :=
  traced d e sql (.query (e.Runner ctx) ctx sql optionsAndArgs)
    (d.Query (e.Runner ctx) ctx sql optionsAndArgs) s

/-- Go `Begin`: `return e.Runner(ctx).Begin(ctx)`. -/
def PgxPool.Begin {σ : Type} (d : Driver σ) (e : PgxPool) (ctx : Context) (s : σ) :
    Run σ (Tx × error) :=
  match d.Begin (e.Runner ctx) ctx s with
  | (r, s1) => ⟨r, s1, [.begin (e.Runner ctx) ctx]⟩

/-- Go `SendBatch`: `spanFinish := e.tracer.TraceData("batch"); defer spanFinish();
return e.Runner(ctx).SendBatch(ctx, b)`. -/
def PgxPool.SendBatch {σ : Type} (d : Driver σ) (e : PgxPool) (ctx : Context) (b : Batch)
    (s : σ) : Run σ BatchResults :=
  traced d e "batch" (.sendBatch (e.Runner ctx) ctx b) (d.SendBatch (e.Runner ctx) ctx b) s

/-- Go `CopyFrom`: `return e.Runner(ctx).CopyFrom(ctx, ident, cls, src)`. -/
def PgxPool.CopyFrom {σ : Type} (d : Driver σ) (e : PgxPool) (ctx : Context)
    (ident : Identifier) (cls : List String) (src : CopyFromSource) (s : σ) :
    Run σ (Int × error) :=
  match d.CopyFrom (e.Runner ctx) ctx ident cls src s with
  | (r, s1) => ⟨r, s1, [.copyFrom (e.Runner ctx) ctx ident cls src]⟩

/-- Go `QueryRow`: `spanFinish := e.tracer.TraceData(sql); defer spanFinish();
return e.Runner(ctx).QueryRow(ctx, sql, optionsAndArgs...)`. -/
def PgxPool.QueryRow {σ : Type} (d : Driver σ) (e : PgxPool) (ctx : Context) (sql : String)
    (optionsAndArgs : List Arg) (s : σ) : Run σ Row :=
  traced d e sql (.queryRow (e.Runner ctx) ctx sql optionsAndArgs)
    (d.QueryRow (e.Runner ctx) ctx sql optionsAndArgs) s

/-- Outcome of a Go function whose `return` statement evaluated to `r` and
whose deferred call then ended as `q`: the function returns `r` when the
deferred call returned, and panics with the deferred call's panic otherwise. -/
def afterDeferred {α : Type} (r : Res α) (q : Res Unit) : Res α :=
  match q with
  | .ok _ => r
  | .panic v => .panic v

/-! ## `pgx_pool.go`: the lifecycle runner -/

/-- The closure deferred by `withinTransactionWithOptions`, run with the
captured local `err` holding `err`:
`var txErr error; if err != nil { txErr = tx.Rollback(ctx) } else
{ txErr = tx.Commit(ctx) }; if txErr != nil && !errors.Is(txErr, pgx.ErrTxClosed)
{ err = txErr }`.
The outcome is the value of the local `err` when the closure ends.  A method
call on a nil `tx` panics. -/
def deferredFinish {σ : Type} (d : Driver σ) (tx : Tx) (ctx : Context) (err : error)
    (s : σ) : Run σ error :=
  match tx with
  | none => ⟨.panic .nilDeref, s, []⟩
  | some h =>
    match err with
    | some e0 =>
      match d.Rollback h ctx s with
      | (.panic v, s1) => ⟨.panic v, s1, [.rollback h ctx]⟩
      | (.ok none, s1) => ⟨.ok (some e0), s1, [.rollback h ctx]⟩
      | (.ok (some txErr), s1) =>
        if !errorsIs txErr .errTxClosed then ⟨.ok (some txErr), s1, [.rollback h ctx]⟩
        else ⟨.ok (some e0), s1, [.rollback h ctx]⟩
    | none =>
      match d.Commit h ctx s with
      | (.panic v, s1) => ⟨.panic v, s1, [.commit h ctx]⟩
      | (.ok none, s1) => ⟨.ok none, s1, [.commit h ctx]⟩
      | (.ok (some txErr), s1) =>
        if !errorsIs txErr .errTxClosed then ⟨.ok (some txErr), s1, [.commit h ctx]⟩
        else ⟨.ok none, s1, [.commit h ctx]⟩

/-- Go `withinTransactionWithOptions`:
`tx, err := txInit.BeginTx(ctx, opts); if err != nil { return err };
defer func() { ... }(); err = txFunc(injectTx(ctx, tx)); return err`.

The function's result is unnamed.  `return err` copies the local `err` into
the result before the deferred closure runs, so what the closure later
assigns to the local `err` does not reach the caller: when the closure
returns, the result is still the value `txFunc` returned.  When `txFunc`
panics the assignment `err = txFunc(...)` never happens, so the closure runs
with `err` still nil from `BeginTx`, and, the closure not recovering, the
panic goes on to the caller. -/
def withinTransactionWithOptions {σ : Type} (d : Driver σ) (ctx : Context)
    (txInit : PgxTransactionInitiator) (txFunc : TxFunc σ) (opts : TxOptions) (s : σ) :
    Run σ error :=
  match d.BeginTx txInit ctx opts s with
  | (.panic v, s1) => ⟨.panic v, s1, [.beginTx txInit ctx opts]⟩
  | (.ok (_, some err), s1) => ⟨.ok (some err), s1, [.beginTx txInit ctx opts]⟩
  | (.ok (tx, none), s1) =>
    match txFunc (injectTx ctx tx) s1 with
    | (.ok err, s2) =>
      let fin := deferredFinish d tx ctx err s2
      match fin.res with
      | .ok _ =>
        ⟨.ok err, fin.st, [.beginTx txInit ctx opts, .txFunc (injectTx ctx tx)] ++ fin.calls⟩
      | .panic v =>
        ⟨.panic v, fin.st, [.beginTx txInit ctx opts, .txFunc (injectTx ctx tx)] ++ fin.calls⟩
    | (.panic v, s2) =>
      let fin := deferredFinish d tx ctx none s2
      match fin.res with
      | .ok _ =>
        ⟨.panic v, fin.st, [.beginTx txInit ctx opts, .txFunc (injectTx ctx tx)] ++ fin.calls⟩
      | .panic v2 =>
        ⟨.panic v2, fin.st, [.beginTx txInit ctx opts, .txFunc (injectTx ctx tx)] ++ fin.calls⟩

/-- Go `withinTransaction`:
`return withinTransactionWithOptions(ctx, txInit, txFunc, pgx.TxOptions{})`. -/
def withinTransaction {σ : Type} (d : Driver σ) (ctx : Context)
    (txInit : PgxTransactionInitiator) (txFunc : TxFunc σ) (s : σ) : Run σ error :=
  withinTransactionWithOptions d ctx txInit txFunc TxOptions.zero s

/-- Go `PgxPool.WithinTransaction`: `return withinTransaction(ctx, e.pool, txFunc)`. -/
def PgxPool.WithinTransaction {σ : Type} (d : Driver σ) (e : PgxPool) (ctx : Context)
    (txFunc : TxFunc σ) (s : σ) : Run σ error :=
  withinTransaction d ctx (.pool e.pool) txFunc s

/-- Go `PgxPool.WithinTransactionWithOptions`:
`return withinTransactionWithOptions(ctx, e.pool, txFunc, opts)`. -/
def PgxPool.WithinTransactionWithOptions {σ : Type} (d : Driver σ) (e : PgxPool)
    (ctx : Context) (txFunc : TxFunc σ) (opts : TxOptions) (s : σ) : Run σ error :=
  withinTransactionWithOptions d ctx (.pool e.pool) txFunc opts s

/-! ## The terminal action -/

/-- The terminal call the deferred closure makes for a given value of `err`. -/
def terminalCall (h : TxHandle) (ctx : Context) (err : error) : Call :=
  match err with
  | some _ => .rollback h ctx
  | none => .commit h ctx

/-- Outcome of the terminal call the deferred closure makes for a given value
of `err`. -/
def terminalResult {σ : Type} (d : Driver σ) (h : TxHandle) (ctx : Context) (err : error)
    (s : σ) : Res error × σ :=
  match err with
  | some _ => d.Rollback h ctx s
  | none => d.Commit h ctx s

/-! ## Counting calls -/

/-- Number of `Commit` calls in a list of calls. -/
def commitCount (calls : List Call) : Nat :=
  calls.countP fun c => match c with
    | .commit _ _ => true
    | _ => false

/-- Number of `Rollback` calls in a list of calls. -/
def rollbackCount (calls : List Call) : Nat :=
  calls.countP fun c => match c with
    | .rollback _ _ => true
    | _ => false

/-- Number of `BeginTx` calls in a list of calls. -/
def beginTxCount (calls : List Call) : Nat :=
  calls.countP fun c => match c with
    | .beginTx _ _ _ => true
    | _ => false

/-- Number of invocations of the unit of work in a list of calls. -/
def txFuncCount (calls : List Call) : Nat :=
  calls.countP fun c => match c with
    | .txFunc _ => true
    | _ => false

/-- Number of `TraceData` calls in a list of calls. -/
def traceDataCount (calls : List Call) : Nat :=
  calls.countP fun c => match c with
    | .traceData _ _ => true
    | _ => false

/-- Number of invocations of a completion callback in a list of calls. -/
def callbackCount (calls : List Call) : Nat :=
  calls.countP fun c => match c with
    | .callback _ => true
    | _ => false

/-! ## `mocks/transactor.go` -/

/-- The mock's `WithinTransaction`: `return txFunc(ctx)`. -/
def MockTransactor.WithinTransaction {σ : Type} (ctx : Context) (txFunc : TxFunc σ)
    (s : σ) : Run σ error :=
  match txFunc ctx s with
  | (r, s1) => ⟨r, s1, [.txFunc ctx]⟩

/-- The mock's `WithinTransactionWithOptions`: `return txFunc(ctx)`, the
options being ignored. -/
def MockTransactor.WithinTransactionWithOptions {σ : Type} (ctx : Context)
    (txFunc : TxFunc σ) (_opts : TxOptions) (s : σ) : Run σ error :=
  match txFunc ctx s with
  | (r, s1) => ⟨r, s1, [.txFunc ctx]⟩

/-- The interface `Transactor`, implemented by `PgxPool` and by the mock. -/
inductive Transactor where
  | pgxPool (e : PgxPool)
  | mock
  deriving DecidableEq, Repr

/-- Dynamic dispatch of `WithinTransaction` on a `Transactor`. -/
def Transactor.WithinTransaction {σ : Type} (d : Driver σ) (t : Transactor) (ctx : Context)
    (txFunc : TxFunc σ) (s : σ) : Run σ error :=
  match t with
  | .pgxPool e => e.WithinTransaction d ctx txFunc s
  | .mock => MockTransactor.WithinTransaction ctx txFunc s

/-! ## `example/testservice.go` -/

/-- The field `trxExecutor espool.PgxQueryRunner` of the repositories: the
executor `*PgxPool`, or a runner used directly. -/
inductive QueryExecutor where
  | facade (e : PgxPool)
  | direct (r : PgxQueryRunner)
  deriving DecidableEq, Repr

/-- Dynamic dispatch of `Exec` on a repository's executor. -/
def QueryExecutor.Exec {σ : Type} (d : Driver σ) (x : QueryExecutor) (ctx : Context)
    (sql : String) (args : List Arg) (s : σ) : Res (CommandTag × error) × σ :=
  match x with
  | .facade e => ((e.Exec d ctx sql args s).res, (e.Exec d ctx sql args s).st)
  | .direct r => d.Exec r ctx sql args s

/-- The struct `PaymentRepository`. -/
structure PaymentRepository where
  trxExecutor : QueryExecutor

/-- The struct `OrderRepository`. -/
structure OrderRepository where
  trxExecutor : QueryExecutor

/-- The struct `ShopService`. -/
structure ShopService where
  esPool : Transactor
  payRps : PaymentRepository
  orderRps : OrderRepository

/-- Go `PaymentRepository.CreatePayment`:
`_, err := r.trxExecutor.Exec(ctx, q, customerID, price);
if err != nil { return err }; return nil`. -/
def PaymentRepository.CreatePayment {σ : Type} (d : Driver σ) (r : PaymentRepository)
    (ctx : Context) (customerID price : Int) (s : σ) : Res error × σ :=
  match r.trxExecutor.Exec d ctx "insert into payment(customer_id,amount) values($1,$2)"
      [.int customerID, .int price] s with
  | (.panic v, s1) => (.panic v, s1)
  | (.ok (_, some err), s1) => (.ok (some err), s1)
  | (.ok (_, none), s1) => (.ok none, s1)

/-- Go `OrderRepository.CreateOrder`:
`_, err := r.trxExecutor.Exec(ctx, q, customerID, orderID);
if err != nil { return err }; return nil`. -/
def OrderRepository.CreateOrder {σ : Type} (d : Driver σ) (r : OrderRepository)
    (ctx : Context) (customerID orderID : Int) (s : σ) : Res error × σ :=
  match r.trxExecutor.Exec d ctx "insert into orders(customer_id,order_id) values($1,$2)"
      [.int customerID, .int orderID] s with
  | (.panic v, s1) => (.panic v, s1)
  | (.ok (_, some err), s1) => (.ok (some err), s1)
  | (.ok (_, none), s1) => (.ok none, s1)

/-- The closure `ShopService.CreateOrder` hands to `WithinTransaction`: create
the payment, then the order, returning the first error (the `logrus.Info`
lines only log). -/
def ShopService.createOrderTxFunc {σ : Type} (d : Driver σ) (svc : ShopService)
    (price customerID orderID : Int) : TxFunc σ :=
  fun txCtx s =>
    match svc.payRps.CreatePayment d txCtx customerID price s with
    | (.panic v, s1) => (.panic v, s1)
    | (.ok (some err), s1) => (.ok (some err), s1)
    | (.ok none, s1) =>
      match svc.orderRps.CreateOrder d txCtx customerID orderID s1 with
      | (.panic v, s2) => (.panic v, s2)
      | (.ok (some err), s2) => (.ok (some err), s2)
      | (.ok none, s2) => (.ok none, s2)

/-- Go `ShopService.CreateOrder`:
`err := s.esPool.WithinTransaction(ctx, func(txCtx) error { ... }); return err`. -/
def ShopService.CreateOrder {σ : Type} (d : Driver σ) (svc : ShopService) (ctx : Context)
    (price customerID orderID : Int) (s : σ) : Run σ error :=
  svc.esPool.WithinTransaction d ctx (svc.createOrderTxFunc d price customerID orderID) s

/-! ## A concrete driver

An in-memory database with one connection, used to run the package on
concrete inputs. -/

/-- A statement with its arguments. -/
abbrev Stmt := String × List Arg

/-- State of the in-memory world. -/
structure World where
  nextTx : Nat
  isOpen : Bool
  pending : List Stmt
  visible : List Stmt
  spans : List (Nat × String)
  finished : List Nat
  deriving DecidableEq, Repr

/-- The empty world. -/
def World.empty : World := ⟨1, false, [], [], [], []⟩

/-- Failures to inject into the in-memory driver. -/
structure Faults where
  beginErr : error
  commitErr : error
  rollbackErr : error
  failingSql : Option String

/-- No failure injected. -/
def Faults.none : Faults := ⟨Option.none, Option.none, Option.none, Option.none⟩

/-- The in-memory driver.  `BeginTx` opens transaction `nextTx`; a statement
run on a transaction is pending until `Commit` makes it visible and is
dropped by `Rollback`; a statement run on the pool is visible at once;
`Commit` and `Rollback` on a finished transaction return `pgx.ErrTxClosed`. -/
def memDriver (f : Faults) : Driver World where
  BeginTx _ _ _ w :=
    match f.beginErr with
    | some e => (.ok (none, some e), w)
    | none =>
      (.ok (some ⟨w.nextTx⟩, none), { w with nextTx := w.nextTx + 1, isOpen := true, pending := [] })
  Commit _ _ w :=
    if w.isOpen then
      match f.commitErr with
      | some e => (.ok (some e), { w with isOpen := false, pending := [] })
      | none => (.ok none, { w with isOpen := false, pending := [], visible := w.visible ++ w.pending })
    else (.ok (some .errTxClosed), w)
  Rollback _ _ w :=
    if w.isOpen then
      match f.rollbackErr with
      | some e => (.ok (some e), { w with isOpen := false, pending := [] })
      | none => (.ok none, { w with isOpen := false, pending := [] })
    else (.ok (some .errTxClosed), w)
  Exec r _ sql args w :=
    if f.failingSql = some sql then (.ok (0, some (.other 23505)), w)
    else
      match r with
      | .tx _ => (.ok (1, none), { w with pending := w.pending ++ [(sql, args)] })
      | .pool _ => (.ok (1, none), { w with visible := w.visible ++ [(sql, args)] })
  Query _ _ sql _ w :=
    if f.failingSql = some sql then (.ok (0, some (.other 42601)), w) else (.ok (w.visible.length, none), w)
  QueryRow _ _ _ _ w := (.ok w.visible.length, w)
  Begin _ _ w := (.ok (some ⟨w.nextTx⟩, none), { w with nextTx := w.nextTx + 1 })
  SendBatch _ _ b w := (.ok b, w)
  CopyFrom _ _ _ _ src w := (.ok (Int.ofNat src, none), w)
  TraceData i request w := (.ok (.ext i), { w with spans := w.spans ++ [(i, request)] })
  Invoke k w := (.ok (), { w with finished := w.finished ++ [k] })

/-- The wiring of `Test_EsPoolNoDataTrace`: one executor
`espool.NewPgxPool(pgxPool)` serves as the transactor and as the executor of
both repositories. -/
def testShop : ShopService :=
  ⟨.pgxPool (NewPgxPool ⟨0⟩), ⟨.facade (NewPgxPool ⟨0⟩)⟩, ⟨.facade (NewPgxPool ⟨0⟩)⟩⟩

/-- The scope of the tests: `context.WithCancel(context.Background())`. -/
def testCtx : Context := .withCancel .background

/-- A unit of work that commits its own transaction and returns nil. -/
def earlyCommit : TxFunc World :=
  fun txCtx w =>
    match extractTx txCtx with
    | none => (.ok (some (.other 1)), w)
    | some h =>
      match (memDriver Faults.none).Commit h txCtx w with
      | (_, w1) => (.ok none, w1)

/-- A unit of work that inserts a payment through the executor and then
panics. -/
def insertThenPanic : TxFunc World :=
  fun txCtx w =>
    match testShop.payRps.CreatePayment (memDriver Faults.none) txCtx 123 12500 w with
    | (_, w1) => (.panic (.value 7), w1)

theorem value_of_neverAttached (s : Context) (h : neverAttached s = true) :
    s.Value .pgxTxKey = .nil := by
  induction s with
  | background => rfl
  | withValue parent k v ih =>
    simp only [neverAttached, Bool.and_eq_true, decide_eq_true_eq] at h
    simp only [Context.Value, if_neg h.1]
    exact ih h.2
  | withCancel parent ih =>
    simp only [neverAttached] at h
    simpa only [Context.Value] using ih h

theorem extractTx_injectTx_some (s : Context) (h : TxHandle) :
    extractTx (injectTx s (some h)) = some h := by
  simp [extractTx, injectTx, Context.Value, Tx.toAny, AnyVal.assertTx]

/-- C9. A lookup in the scope derived by `injectTx s h` yields `h` whatever
`s` carried, so of two nested attachments the innermost is seen; the derived
scope is a new layer over `s`, which it keeps as its parent unchanged, and
lookups of every other key pass through to `s`; a scope to which no handle
was ever attached resolves to nil. -/
theorem carrier_innermost_handle (s s0 : Context) (h h2 : TxHandle)
    (hNever : neverAttached s0 = true) :
    extractTx (injectTx s (some h)) = some h ∧
    extractTx (injectTx (injectTx s (some h)) (some h2)) = some h2 ∧
    (injectTx s (some h)).parent? = some s ∧
    (∀ k, k ≠ CtxKey.pgxTxKey → (injectTx s (some h)).Value k = s.Value k) ∧
    extractTx s0 = none ∧
    extractTx Context.background = none := by
  refine ⟨extractTx_injectTx_some s h, extractTx_injectTx_some _ h2, rfl, ?_, ?_, rfl⟩
  · intro k hk
    simp only [injectTx, Context.Value]
    rw [if_neg (fun hh => hk hh.symm)]
  · simp [extractTx, value_of_neverAttached s0 hNever, AnyVal.assertTx]

theorem carrier_innermost_handle_witness :
    neverAttached (Context.withCancel (.withValue .background (.other 1) (.other 7))) = true ∧
    extractTx (injectTx (injectTx .background (some ⟨1⟩)) (some ⟨2⟩)) = some ⟨2⟩ :=
  ⟨by decide,
   (carrier_innermost_handle (injectTx .background (some ⟨1⟩))
      (Context.withCancel (.withValue .background (.other 1) (.other 7)))
      ⟨2⟩ ⟨2⟩ (by decide)).1⟩


/-! ## The lifecycle runner: lemmas -/

theorem deferredFinish_calls {σ : Type} (d : Driver σ) (h : TxHandle) (ctx : Context)
    (err : error) (s : σ) :
    (deferredFinish d (some h) ctx err s).calls = [terminalCall h ctx err] := by
  cases err with
  | none =>
    simp only [deferredFinish, terminalCall]
    split
    · rfl
    · rfl
    · split <;> rfl
  | some e0 =>
    simp only [deferredFinish, terminalCall]
    split
    · rfl
    · rfl
    · split <;> rfl

theorem deferredFinish_res_of_returns {σ : Type} (d : Driver σ) (h : TxHandle)
    (ctx : Context) (err txErr : error) (s s1 : σ)
    (hTerm : terminalResult d h ctx err s = (.ok txErr, s1)) :
    ∃ e, (deferredFinish d (some h) ctx err s).res = .ok e := by
  cases err with
  | none =>
    simp only [terminalResult] at hTerm
    cases txErr with
    | none => exact ⟨none, by simp only [deferredFinish, hTerm]⟩
    | some e =>
      by_cases hc : errorsIs e .errTxClosed = true
      · exact ⟨none, by simp [deferredFinish, hTerm, hc]⟩
      · exact ⟨some e, by simp [deferredFinish, hTerm, hc]⟩
  | some e0 =>
    simp only [terminalResult] at hTerm
    cases txErr with
    | none => exact ⟨some e0, by simp only [deferredFinish, hTerm]⟩
    | some e =>
      by_cases hc : errorsIs e .errTxClosed = true
      · exact ⟨some e0, by simp [deferredFinish, hTerm, hc]⟩
      · exact ⟨some e, by simp [deferredFinish, hTerm, hc]⟩

theorem withinTransactionWithOptions_calls {σ : Type} (d : Driver σ) (ctx : Context)
    (txInit : PgxTransactionInitiator) (txFunc : TxFunc σ) (opts : TxOptions)
    (s s1 s2 : σ) (h : TxHandle) (r : error)
    (hBegin : d.BeginTx txInit ctx opts s = (.ok (some h, none), s1))
    (hFunc : txFunc (injectTx ctx (some h)) s1 = (.ok r, s2)) :
    (withinTransactionWithOptions d ctx txInit txFunc opts s).calls =
      [.beginTx txInit ctx opts, .txFunc (injectTx ctx (some h)), terminalCall h ctx r] := by
  simp only [withinTransactionWithOptions, hBegin, hFunc]
  split <;> simp [deferredFinish_calls]

theorem withinTransactionWithOptions_res {σ : Type} (d : Driver σ) (ctx : Context)
    (txInit : PgxTransactionInitiator) (txFunc : TxFunc σ) (opts : TxOptions)
    (s s1 s2 s3 : σ) (h : TxHandle) (r txErr : error)
    (hBegin : d.BeginTx txInit ctx opts s = (.ok (some h, none), s1))
    (hFunc : txFunc (injectTx ctx (some h)) s1 = (.ok r, s2))
    (hTerm : terminalResult d h ctx r s2 = (.ok txErr, s3)) :
    (withinTransactionWithOptions d ctx txInit txFunc opts s).res = .ok r := by
  obtain ⟨e, he⟩ := deferredFinish_res_of_returns d h ctx r txErr s2 s3 hTerm
  simp only [withinTransactionWithOptions, hBegin, hFunc, he]

theorem deferredFinish_st {σ : Type} (d : Driver σ) (h : TxHandle) (ctx : Context)
    (err : error) (s : σ) :
    (deferredFinish d (some h) ctx err s).st = (terminalResult d h ctx err s).2 := by
  cases err with
  | none =>
    simp only [deferredFinish, terminalResult]
    split
    · rename_i heq; rw [heq]
    · rename_i heq; rw [heq]
    · rename_i heq; rw [heq]; split <;> rfl
  | some e0 =>
    simp only [deferredFinish, terminalResult]
    split
    · rename_i heq; rw [heq]
    · rename_i heq; rw [heq]
    · rename_i heq; rw [heq]; split <;> rfl

theorem withinTransactionWithOptions_st {σ : Type} (d : Driver σ) (ctx : Context)
    (txInit : PgxTransactionInitiator) (txFunc : TxFunc σ) (opts : TxOptions)
    (s s1 s2 : σ) (h : TxHandle) (r : error)
    (hBegin : d.BeginTx txInit ctx opts s = (.ok (some h, none), s1))
    (hFunc : txFunc (injectTx ctx (some h)) s1 = (.ok r, s2)) :
    (withinTransactionWithOptions d ctx txInit txFunc opts s).st =
      (terminalResult d h ctx r s2).2 := by
  simp only [withinTransactionWithOptions, hBegin, hFunc]
  split <;> simp [deferredFinish_st]

theorem withinTransactionWithOptions_panics {σ : Type} (d : Driver σ) (ctx : Context)
    (txInit : PgxTransactionInitiator) (txFunc : TxFunc σ) (opts : TxOptions)
    (s s1 s2 : σ) (h : TxHandle) (v : PanicVal)
    (hBegin : d.BeginTx txInit ctx opts s = (.ok (some h, none), s1))
    (hFunc : txFunc (injectTx ctx (some h)) s1 = (.panic v, s2)) :
    ∃ v2, (withinTransactionWithOptions d ctx txInit txFunc opts s).res = .panic v2 := by
  simp only [withinTransactionWithOptions, hBegin, hFunc]
  split
  · exact ⟨v, rfl⟩
  · rename_i v2 _
    exact ⟨v2, rfl⟩

/-! ## The lifecycle runner: contract -/

/-- C2. When `BeginTx` succeeds and the unit of work returns, the runner
makes exactly three calls: `BeginTx` once with the caller's options, the unit
of work once, and one terminal call on the opened handle, which is `Commit`
(and no `Rollback`) after a nil result and `Rollback` (and no `Commit`) after
an error.  The world the runner leaves is the one that terminal call produced
from the world the unit of work left: the state after `Commit` on the handle
when the result was nil, the state after `Rollback` on the handle when it was
an error. -/
theorem withinTransactionWithOptions_one_terminal_action {σ : Type} (d : Driver σ)
    (ctx : Context) (txInit : PgxTransactionInitiator) (txFunc : TxFunc σ)
    (opts : TxOptions) (s s1 s2 : σ) (h : TxHandle) (r : error)
    (hBegin : d.BeginTx txInit ctx opts s = (.ok (some h, none), s1))
    (hFunc : txFunc (injectTx ctx (some h)) s1 = (.ok r, s2)) :
    (withinTransactionWithOptions d ctx txInit txFunc opts s).calls =
      [.beginTx txInit ctx opts, .txFunc (injectTx ctx (some h)),
        match r with
        | none => .commit h ctx
        | some _ => .rollback h ctx] ∧
    beginTxCount (withinTransactionWithOptions d ctx txInit txFunc opts s).calls = 1 ∧
    (r = none →
      commitCount (withinTransactionWithOptions d ctx txInit txFunc opts s).calls = 1 ∧
      rollbackCount (withinTransactionWithOptions d ctx txInit txFunc opts s).calls = 0) ∧
    (r ≠ none →
      rollbackCount (withinTransactionWithOptions d ctx txInit txFunc opts s).calls = 1 ∧
      commitCount (withinTransactionWithOptions d ctx txInit txFunc opts s).calls = 0) ∧
    (r = none →
      (withinTransactionWithOptions d ctx txInit txFunc opts s).st =
        (d.Commit h ctx s2).2) ∧
    (r ≠ none →
      (withinTransactionWithOptions d ctx txInit txFunc opts s).st =
        (d.Rollback h ctx s2).2) ∧
    (∀ txErr s3, d.Commit h ctx s2 = (.ok txErr, s3) → r = none →
      (withinTransactionWithOptions d ctx txInit txFunc opts s).res = .ok none) ∧
    (∀ txErr s3 e0, d.Rollback h ctx s2 = (.ok txErr, s3) → r = some e0 →
      (withinTransactionWithOptions d ctx txInit txFunc opts s).res = .ok (some e0)) ∧
    (∀ v s3, d.Commit h ctx s2 = (.panic v, s3) → r = none →
      (withinTransactionWithOptions d ctx txInit txFunc opts s).res = .panic v) ∧
    (∀ v s3, d.Rollback h ctx s2 = (.panic v, s3) → r ≠ none →
      (withinTransactionWithOptions d ctx txInit txFunc opts s).res = .panic v) := by
  have hst := withinTransactionWithOptions_st d ctx txInit txFunc opts s s1 s2 h r hBegin hFunc
  rw [withinTransactionWithOptions_calls d ctx txInit txFunc opts s s1 s2 h r hBegin hFunc]
  refine ⟨?_, ?_, ?_, ?_, ?_, ?_, ?_, ?_, ?_, ?_⟩
  · cases r <;> rfl
  · cases r <;> simp [terminalCall, beginTxCount]
  · rintro rfl
    simp [terminalCall, commitCount, rollbackCount]
  · intro hr
    cases r with
    | none => exact absurd rfl hr
    | some e0 => simp [terminalCall, commitCount, rollbackCount]
  · rintro rfl
    exact hst
  · intro hr
    cases r with
    | none => exact absurd rfl hr
    | some e0 => exact hst
  · rintro txErr s3 hC rfl
    exact withinTransactionWithOptions_res d ctx txInit txFunc opts s s1 s2 s3 h none txErr
      hBegin hFunc hC
  · rintro txErr s3 e0 hR rfl
    exact withinTransactionWithOptions_res d ctx txInit txFunc opts s s1 s2 s3 h (some e0) txErr
      hBegin hFunc hR
  · rintro v s3 hC rfl
    simp [withinTransactionWithOptions, hBegin, hFunc, deferredFinish, hC]
  · intro v s3 hR hr
    cases r with
    | none => exact absurd rfl hr
    | some e0 => simp [withinTransactionWithOptions, hBegin, hFunc, deferredFinish, hR]

theorem withinTransactionWithOptions_one_terminal_action_witness :
    (withinTransactionWithOptions (memDriver Faults.none) .background (.pool ⟨0⟩)
        (fun _ w => (.ok (some (.other 5)), { w with pending := [("insert", [])] }))
        ⟨"serializable", "", "", ""⟩ World.empty).calls =
      [.beginTx (.pool ⟨0⟩) .background ⟨"serializable", "", "", ""⟩,
        .txFunc (injectTx .background (some ⟨1⟩)), .rollback ⟨1⟩ .background] ∧
    (withinTransactionWithOptions (memDriver Faults.none) .background (.pool ⟨0⟩)
        (fun _ w => (.ok (some (.other 5)), { w with pending := [("insert", [])] }))
        ⟨"serializable", "", "", ""⟩ World.empty).st = ⟨2, false, [], [], [], []⟩ :=
  ⟨(withinTransactionWithOptions_one_terminal_action (memDriver Faults.none) .background
      (.pool ⟨0⟩)
      (fun _ w => (.ok (some (.other 5)), { w with pending := [("insert", [])] }))
      ⟨"serializable", "", "", ""⟩ World.empty ⟨2, true, [], [], [], []⟩
      ⟨2, true, [("insert", [])], [], [], []⟩ ⟨1⟩ (some (.other 5)) rfl rfl).1,
   rfl⟩

/-- C5. When `BeginTx` fails with `e`, the runner returns `e` unchanged and
has made no call but `BeginTx`: the unit of work is not invoked, there is no
`Commit` and no `Rollback`, and the world is as `BeginTx` left it. -/
theorem withinTransactionWithOptions_begin_fails {σ : Type} (d : Driver σ)
    (ctx : Context) (txInit : PgxTransactionInitiator) (txFunc : TxFunc σ)
    (opts : TxOptions) (s s1 : σ) (tx : Tx) (e : GoError)
    (hBegin : d.BeginTx txInit ctx opts s = (.ok (tx, some e), s1)) :
    (withinTransactionWithOptions d ctx txInit txFunc opts s).res = .ok (some e) ∧
    (withinTransactionWithOptions d ctx txInit txFunc opts s).calls =
      [.beginTx txInit ctx opts] ∧
    (withinTransactionWithOptions d ctx txInit txFunc opts s).st = s1 ∧
    txFuncCount (withinTransactionWithOptions d ctx txInit txFunc opts s).calls = 0 ∧
    commitCount (withinTransactionWithOptions d ctx txInit txFunc opts s).calls = 0 ∧
    rollbackCount (withinTransactionWithOptions d ctx txInit txFunc opts s).calls = 0 := by
  simp [withinTransactionWithOptions, hBegin, txFuncCount, commitCount, rollbackCount]

theorem withinTransactionWithOptions_begin_fails_witness :
    (withinTransactionWithOptions (memDriver ⟨some (.other 8), none, none, none⟩)
        .background (.pool ⟨0⟩) (fun _ w => (.panic (.value 1), w)) TxOptions.zero
        World.empty).res = .ok (some (.other 8)) :=
  (withinTransactionWithOptions_begin_fails (memDriver ⟨some (.other 8), none, none, none⟩)
    .background (.pool ⟨0⟩) (fun _ w => (.panic (.value 1), w)) TxOptions.zero
    World.empty World.empty none (.other 8) rfl).1

/-- C4. When `BeginTx` succeeds and the terminal call (`Commit` after a nil
result, `Rollback` after an error) returns nil, `WithinTransaction` returns
exactly what the unit of work returned. -/
theorem WithinTransaction_returns_unit_of_work_result {σ : Type} (d : Driver σ)
    (e : PgxPool) (ctx : Context) (txFunc : TxFunc σ) (s s1 s2 s3 : σ) (h : TxHandle)
    (r : error)
    (hBegin : d.BeginTx (.pool e.pool) ctx TxOptions.zero s = (.ok (some h, none), s1))
    (hFunc : txFunc (injectTx ctx (some h)) s1 = (.ok r, s2))
    (hTerm : terminalResult d h ctx r s2 = (.ok none, s3)) :
    (e.WithinTransaction d ctx txFunc s).res = .ok r :=
  withinTransactionWithOptions_res d ctx (.pool e.pool) txFunc TxOptions.zero s s1 s2 s3 h r
    none hBegin hFunc hTerm

theorem WithinTransaction_returns_unit_of_work_result_witness :
    (testShop.CreateOrder (memDriver Faults.none) testCtx 12500 123 105 World.empty).res =
      .ok none :=
  WithinTransaction_returns_unit_of_work_result (memDriver Faults.none) (NewPgxPool ⟨0⟩)
    testCtx (testShop.createOrderTxFunc (memDriver Faults.none) 12500 123 105)
    World.empty ⟨2, true, [], [], [], []⟩
    ⟨2, true,
      [("insert into payment(customer_id,amount) values($1,$2)", [.int 123, .int 12500]),
       ("insert into orders(customer_id,order_id) values($1,$2)", [.int 123, .int 105])],
      [], [], []⟩
    ⟨2, false, [],
      [("insert into payment(customer_id,amount) values($1,$2)", [.int 123, .int 12500]),
       ("insert into orders(customer_id,order_id) values($1,$2)", [.int 123, .int 105])],
      [], []⟩
    ⟨1⟩ none rfl rfl rfl

/-- C6. When `BeginTx` succeeds, the unit of work returns `r`, and the
terminal call returns an error that is `pgx.ErrTxClosed` or wraps it, the
deferred closure leaves the local `err` at `r` and the runner returns `r`. -/
theorem withinTransactionWithOptions_swallows_tx_closed {σ : Type} (d : Driver σ)
    (ctx : Context) (txInit : PgxTransactionInitiator) (txFunc : TxFunc σ)
    (opts : TxOptions) (s s1 s2 s3 : σ) (h : TxHandle) (r : error) (e : GoError)
    (hBegin : d.BeginTx txInit ctx opts s = (.ok (some h, none), s1))
    (hFunc : txFunc (injectTx ctx (some h)) s1 = (.ok r, s2))
    (hTerm : terminalResult d h ctx r s2 = (.ok (some e), s3))
    (hClosed : errorsIs e .errTxClosed = true) :
    (deferredFinish d (some h) ctx r s2).res = .ok r ∧
    (withinTransactionWithOptions d ctx txInit txFunc opts s).res = .ok r := by
  refine ⟨?_, withinTransactionWithOptions_res d ctx txInit txFunc opts s s1 s2 s3 h r
    (some e) hBegin hFunc hTerm⟩
  cases r with
  | none =>
    simp only [terminalResult] at hTerm
    simp [deferredFinish, hTerm, hClosed]
  | some e0 =>
    simp only [terminalResult] at hTerm
    simp [deferredFinish, hTerm, hClosed]

theorem withinTransactionWithOptions_swallows_tx_closed_witness :
    errorsIs .errTxClosed .errTxClosed = true ∧
    (withinTransactionWithOptions (memDriver Faults.none) testCtx (.pool ⟨0⟩) earlyCommit
        TxOptions.zero World.empty).res = .ok none :=
  ⟨by decide,
   (withinTransactionWithOptions_swallows_tx_closed (memDriver Faults.none) testCtx
      (.pool ⟨0⟩) earlyCommit TxOptions.zero World.empty ⟨2, true, [], [], [], []⟩
      ⟨2, false, [], [], [], []⟩ ⟨2, false, [], [], [], []⟩ ⟨1⟩ none .errTxClosed
      rfl rfl rfl (by decide)).2⟩

/-- C1, evaluated.  With a unit of work that returns nil and a `Commit` that
fails with an error other than `pgx.ErrTxClosed`, the deferred closure stores
the commit error in the local `err`, yet the runner returns nil; likewise with
a unit of work that returns an error and a `Rollback` that fails with another
error, the runner returns the unit of work's error, not the rollback error. -/
theorem withinTransactionWithOptions_drops_terminal_error :
    (memDriver ⟨none, some (.other 40001), none, none⟩).Commit ⟨1⟩ .background
        ⟨2, true, [], [], [], []⟩ =
      (.ok (some (.other 40001)), ⟨2, false, [], [], [], []⟩) ∧
    errorsIs (.other 40001) .errTxClosed = false ∧
    (deferredFinish (memDriver ⟨none, some (.other 40001), none, none⟩) (some ⟨1⟩)
        .background none ⟨2, true, [], [], [], []⟩).res = .ok (some (.other 40001)) ∧
    (withinTransactionWithOptions (memDriver ⟨none, some (.other 40001), none, none⟩)
        .background (.pool ⟨0⟩) (fun _ w => (.ok none, w)) TxOptions.zero
        World.empty).res = .ok none ∧
    (withinTransactionWithOptions (memDriver ⟨none, some (.other 40001), none, none⟩)
        .background (.pool ⟨0⟩) (fun _ w => (.ok none, w)) TxOptions.zero
        World.empty).calls =
      [.beginTx (.pool ⟨0⟩) .background TxOptions.zero,
        .txFunc (injectTx .background (some ⟨1⟩)), .commit ⟨1⟩ .background] ∧
    (withinTransactionWithOptions (memDriver ⟨none, none, some (.other 57014), none⟩)
        .background (.pool ⟨0⟩) (fun _ w => (.ok (some (.other 5)), w)) TxOptions.zero
        World.empty).res = .ok (some (.other 5)) := by
  refine ⟨rfl, by decide, rfl, rfl, rfl, rfl⟩

/-- C3, evaluated.  With a unit of work that inserts a payment and then
panics, the runner calls `Commit` on the opened handle and never `Rollback`,
the payment becomes visible, and the panic reaches the caller. -/
theorem withinTransactionWithOptions_commits_on_panic :
    (withinTransactionWithOptions (memDriver Faults.none) testCtx (.pool ⟨0⟩)
        insertThenPanic TxOptions.zero World.empty).calls =
      [.beginTx (.pool ⟨0⟩) testCtx TxOptions.zero,
        .txFunc (injectTx testCtx (some ⟨1⟩)), .commit ⟨1⟩ testCtx] ∧
    rollbackCount (withinTransactionWithOptions (memDriver Faults.none) testCtx (.pool ⟨0⟩)
        insertThenPanic TxOptions.zero World.empty).calls = 0 ∧
    (withinTransactionWithOptions (memDriver Faults.none) testCtx (.pool ⟨0⟩)
        insertThenPanic TxOptions.zero World.empty).res = .panic (.value 7) ∧
    (withinTransactionWithOptions (memDriver Faults.none) testCtx (.pool ⟨0⟩)
        insertThenPanic TxOptions.zero World.empty).st.visible =
      [("insert into payment(customer_id,amount) values($1,$2)", [.int 123, .int 12500])] := by
  refine ⟨rfl, by decide, rfl, rfl⟩

/-! ## Routing -/

theorem Runner_injectTx (e : PgxPool) (c : Context) (h : TxHandle) :
    e.Runner (injectTx c (some h)) = .tx h := by
  simp only [PgxPool.Runner, extractTx_injectTx_some]

theorem withinTransactionWithOptions_calls_of_begin {σ : Type} (d : Driver σ)
    (ctx : Context) (txInit : PgxTransactionInitiator) (txFunc : TxFunc σ)
    (opts : TxOptions) (s s1 : σ) (h : TxHandle)
    (hBegin : d.BeginTx txInit ctx opts s = (.ok (some h, none), s1)) :
    ∃ err, (withinTransactionWithOptions d ctx txInit txFunc opts s).calls =
      [.beginTx txInit ctx opts, .txFunc (injectTx ctx (some h)), terminalCall h ctx err] := by
  simp only [withinTransactionWithOptions, hBegin]
  split
  · rename_i err s2 _
    refine ⟨err, ?_⟩
    split <;> simp [deferredFinish_calls]
  · refine ⟨none, ?_⟩
    split <;> simp [deferredFinish_calls]

theorem traced_calls_cases {σ α : Type} (d : Driver σ) (e : PgxPool) (request : String)
    (call : Call) (body : σ → Res α × σ) (s : σ) :
    (traced d e request call body s).calls = [.traceData e.tracer request] ∨
    ∃ cb, (traced d e request call body s).calls =
      [.traceData e.tracer request, call, .callback cb] := by
  unfold traced
  split
  · exact Or.inl rfl
  · rename_i spanFinish s1 _
    refine Or.inr ⟨spanFinish, ?_⟩
    split
    split <;> rfl

theorem traced_calls {σ α : Type} (d : Driver σ) (e : PgxPool) (request : String)
    (call : Call) (body : σ → Res α × σ) (s s1 : σ) (cb : Callback)
    (hTrace : e.tracer.TraceData d request s = (.ok cb, s1)) :
    (traced d e request call body s).calls =
      [.traceData e.tracer request, call, .callback cb] := by
  unfold traced
  rw [hTrace]
  simp only
  split <;> rfl

theorem traced_run {σ α : Type} (d : Driver σ) (e : PgxPool) (request : String)
    (call : Call) (body : σ → Res α × σ) (s s1 : σ) (cb : Callback)
    (hTrace : e.tracer.TraceData d request s = (.ok cb, s1)) :
    (traced d e request call body s).st = (cb.invoke d (body s1).2).2 ∧
    (traced d e request call body s).res =
      afterDeferred (body s1).1 (cb.invoke d (body s1).2).1 := by
  unfold traced
  rw [hTrace]
  simp only
  split
  · rename_i heq
    rw [heq]
    exact ⟨rfl, rfl⟩
  · rename_i heq
    rw [heq]
    exact ⟨rfl, rfl⟩

theorem traced_panics {σ α : Type} (d : Driver σ) (e : PgxPool) (request : String)
    (call : Call) (body : σ → Res α × σ) (s s1 : σ) (v : PanicVal)
    (hTrace : e.tracer.TraceData d request s = (.panic v, s1)) :
    (traced d e request call body s).res = .panic v ∧
    (traced d e request call body s).st = s1 ∧
    (traced d e request call body s).calls = [.traceData e.tracer request] := by
  unfold traced
  rw [hTrace]
  exact ⟨rfl, rfl, rfl⟩

theorem traced_nilTracer {σ α : Type} (d : Driver σ) (p : Pool) (request : String)
    (call : Call) (body : σ → Res α × σ) (s : σ) :
    (traced d (NewPgxPool p) request call body s).res = (body s).1 ∧
    (traced d (NewPgxPool p) request call body s).st = (body s).2 := by
  have h := traced_run d (NewPgxPool p) request call body s s .noop rfl
  exact ⟨h.2, h.1⟩

/-- C7. `Runner` returns the handle `extractTx` finds in the scope and the
executor's pool when there is none; in particular a scope made by `injectTx`
resolves to the injected handle and a scope no handle was attached to resolves
to the pool.  Inside `withinTransactionWithOptions`, after a successful
`BeginTx`, the unit of work is invoked with a scope that resolves to the
handle `BeginTx` returned: the world the runner leaves is computed from what
the unit of work does on that scope.  The caller's scope, carrying no handle,
resolves to the pool.  An `Exec` of the executor under the inner scope runs
the driver's `Exec` of that handle, and an `Exec` under the outer scope runs
the driver's `Exec` of the pool: outcome and world are those of that driver
call, followed by the hook's callback; the two runners differ. -/
theorem Runner_routes_by_scope {σ : Type} (d : Driver σ) (e : PgxPool) (ctx : Context)
    (txInit : PgxTransactionInitiator) (txFunc : TxFunc σ) (opts : TxOptions)
    (s s1 sa sb : σ) (h : TxHandle) (sql : String) (args : List Arg)
    (hOuter : extractTx ctx = none)
    (hBegin : d.BeginTx txInit ctx opts s = (.ok (some h, none), s1)) :
    (∀ c h0, extractTx c = some h0 → e.Runner c = .tx h0) ∧
    (∀ c, extractTx c = none → e.Runner c = .pool e.pool) ∧
    (∀ c h0, e.Runner (injectTx c (some h0)) = .tx h0) ∧
    (∀ c, neverAttached c = true → e.Runner c = .pool e.pool) ∧
    Call.txFunc (injectTx ctx (some h)) ∈
      (withinTransactionWithOptions d ctx txInit txFunc opts s).calls ∧
    (∀ c, Call.txFunc c ∈ (withinTransactionWithOptions d ctx txInit txFunc opts s).calls →
      e.Runner c = .tx h) ∧
    e.Runner ctx = .pool e.pool ∧
    e.Runner (injectTx ctx (some h)) ≠ e.Runner ctx ∧
    (∀ r c q a, Call.exec r c q a ∈ (e.Exec d (injectTx ctx (some h)) sql args sa).calls →
      r = .tx h) ∧
    (∀ r c q a, Call.exec r c q a ∈ (e.Exec d ctx sql args sb).calls → r = .pool e.pool) ∧
    ((NewPgxPool e.pool).Exec d (injectTx ctx (some h)) sql args sa).calls =
      [.traceData .nilTracer sql, .exec (.tx h) (injectTx ctx (some h)) sql args,
        .callback .noop] ∧
    ((NewPgxPool e.pool).Exec d ctx sql args sb).calls =
      [.traceData .nilTracer sql, .exec (.pool e.pool) ctx sql args, .callback .noop] ∧
    (∀ r s2, txFunc (injectTx ctx (some h)) s1 = (.ok r, s2) →
      (withinTransactionWithOptions d ctx txInit txFunc opts s).st =
        (terminalResult d h ctx r s2).2) ∧
    (∀ v s2, txFunc (injectTx ctx (some h)) s1 = (.panic v, s2) →
      ∃ v2, (withinTransactionWithOptions d ctx txInit txFunc opts s).res = .panic v2) ∧
    (∀ cb s0, e.tracer.TraceData d sql sa = (.ok cb, s0) →
      (e.Exec d (injectTx ctx (some h)) sql args sa).st =
        (cb.invoke d (d.Exec (.tx h) (injectTx ctx (some h)) sql args s0).2).2 ∧
      (e.Exec d (injectTx ctx (some h)) sql args sa).res =
        afterDeferred (d.Exec (.tx h) (injectTx ctx (some h)) sql args s0).1
          (cb.invoke d (d.Exec (.tx h) (injectTx ctx (some h)) sql args s0).2).1) ∧
    (∀ cb s0, e.tracer.TraceData d sql sb = (.ok cb, s0) →
      (e.Exec d ctx sql args sb).st =
        (cb.invoke d (d.Exec (.pool e.pool) ctx sql args s0).2).2 ∧
      (e.Exec d ctx sql args sb).res =
        afterDeferred (d.Exec (.pool e.pool) ctx sql args s0).1
          (cb.invoke d (d.Exec (.pool e.pool) ctx sql args s0).2).1) ∧
    (((NewPgxPool e.pool).Exec d (injectTx ctx (some h)) sql args sa).res =
        (d.Exec (.tx h) (injectTx ctx (some h)) sql args sa).1 ∧
      ((NewPgxPool e.pool).Exec d (injectTx ctx (some h)) sql args sa).st =
        (d.Exec (.tx h) (injectTx ctx (some h)) sql args sa).2) ∧
    (((NewPgxPool e.pool).Exec d ctx sql args sb).res =
        (d.Exec (.pool e.pool) ctx sql args sb).1 ∧
      ((NewPgxPool e.pool).Exec d ctx sql args sb).st =
        (d.Exec (.pool e.pool) ctx sql args sb).2) := by
  have hOut : e.Runner ctx = .pool e.pool := by simp only [PgxPool.Runner, hOuter]
  have hIn : e.Runner (injectTx ctx (some h)) = .tx h := Runner_injectTx e ctx h
  have hIn2 : (NewPgxPool e.pool).Runner (injectTx ctx (some h)) = .tx h :=
    Runner_injectTx _ ctx h
  have hOut2 : (NewPgxPool e.pool).Runner ctx = .pool e.pool := by
    simp only [PgxPool.Runner, hOuter, NewPgxPool]
  obtain ⟨err, hcalls⟩ :=
    withinTransactionWithOptions_calls_of_begin d ctx txInit txFunc opts s s1 h hBegin
  refine ⟨?_, ?_, Runner_injectTx e, ?_, ?_, ?_, hOut, ?_, ?_, ?_, ?_, ?_, ?_, ?_, ?_, ?_,
    ?_, ?_⟩
  · intro c h0 hc
    simp only [PgxPool.Runner, hc]
  · intro c hc
    simp only [PgxPool.Runner, hc]
  · intro c hc
    have : extractTx c = none := by
      simp [extractTx, value_of_neverAttached c hc, AnyVal.assertTx]
    simp only [PgxPool.Runner, this]
  · rw [hcalls]; simp
  · intro c hc
    rw [hcalls] at hc
    have : c = injectTx ctx (some h) := by
      cases err <;> simpa [terminalCall] using hc
    rw [this]; exact hIn
  · rw [hIn, hOut]; simp
  · intro r c q a hm
    rcases traced_calls_cases d e sql
      (.exec (e.Runner (injectTx ctx (some h))) (injectTx ctx (some h)) sql args)
      (d.Exec (e.Runner (injectTx ctx (some h))) (injectTx ctx (some h)) sql args) sa with hc | ⟨cb, hc⟩
    · simp [PgxPool.Exec, hc] at hm
    · simp only [PgxPool.Exec, hc] at hm
      simp at hm
      rw [hm.1, hIn]
  · intro r c q a hm
    rcases traced_calls_cases d e sql (.exec (e.Runner ctx) ctx sql args)
      (d.Exec (e.Runner ctx) ctx sql args) sb with hc | ⟨cb, hc⟩
    · simp [PgxPool.Exec, hc] at hm
    · simp only [PgxPool.Exec, hc] at hm
      simp at hm
      rw [hm.1, hOut]
  · simp only [PgxPool.Exec, hIn2]
    exact traced_calls d (NewPgxPool e.pool) sql _ _ sa sa .noop rfl
  · simp only [PgxPool.Exec, hOut2]
    exact traced_calls d (NewPgxPool e.pool) sql _ _ sb sb .noop rfl
  · intro r s2 hFunc
    exact withinTransactionWithOptions_st d ctx txInit txFunc opts s s1 s2 h r hBegin hFunc
  · intro v s2 hFunc
    exact withinTransactionWithOptions_panics d ctx txInit txFunc opts s s1 s2 h v hBegin hFunc
  · intro cb s0 hT
    simp only [PgxPool.Exec, hIn]
    exact traced_run d e sql _ _ sa s0 cb hT
  · intro cb s0 hT
    simp only [PgxPool.Exec, hOut]
    exact traced_run d e sql _ _ sb s0 cb hT
  · simp only [PgxPool.Exec, hIn2]
    exact traced_nilTracer d e.pool sql _ _ sa
  · simp only [PgxPool.Exec, hOut2]
    exact traced_nilTracer d e.pool sql _ _ sb

theorem Runner_routes_by_scope_witness :
    extractTx testCtx = none ∧
    (memDriver Faults.none).BeginTx (.pool ⟨0⟩) testCtx TxOptions.zero World.empty =
      (.ok (some ⟨1⟩, none), ⟨2, true, [], [], [], []⟩) ∧
    ((NewPgxPool ⟨0⟩).WithTracer (.ext 3)).Runner (injectTx testCtx (some ⟨1⟩)) ≠
      ((NewPgxPool ⟨0⟩).WithTracer (.ext 3)).Runner testCtx ∧
    (((NewPgxPool ⟨0⟩).WithTracer (.ext 3)).Exec (memDriver Faults.none)
        (injectTx testCtx (some ⟨1⟩)) "select 1" [] World.empty).st =
      ⟨1, false, [("select 1", [])], [], [(3, "select 1")], [3]⟩ ∧
    (((NewPgxPool ⟨0⟩).WithTracer (.ext 3)).Exec (memDriver Faults.none)
        testCtx "select 1" [] World.empty).st =
      ⟨1, false, [], [("select 1", [])], [(3, "select 1")], [3]⟩ :=
  ⟨rfl, rfl,
   (Runner_routes_by_scope (memDriver Faults.none) ((NewPgxPool ⟨0⟩).WithTracer (.ext 3))
      testCtx (.pool ⟨0⟩) insertThenPanic TxOptions.zero World.empty
      ⟨2, true, [], [], [], []⟩ World.empty World.empty ⟨1⟩ "select 1" [] rfl rfl).2.2.2.2.2.2.2.1,
   rfl, rfl⟩


/-! ## Instrumentation -/

theorem traced_traceData_mem {σ α : Type} (d : Driver σ) (e : PgxPool) (request : String)
    (call : Call) (body : σ → Res α × σ) (s : σ)
    (hCall : ∀ t r, call ≠ .traceData t r) (t : Tracer) (r : String)
    (hm : Call.traceData t r ∈ (traced d e request call body s).calls) :
    t = e.tracer ∧ r = request := by
  rcases traced_calls_cases d e request call body s with hc | ⟨cb, hc⟩
  · rw [hc] at hm
    simpa using hm
  · rw [hc] at hm
    rcases List.mem_cons.1 hm with h1 | h1
    · exact Call.traceData.inj h1
    · rcases List.mem_cons.1 h1 with h2 | h2
      · exact absurd h2.symm (hCall t r)
      · simp at h2

theorem traced_head {σ α : Type} (d : Driver σ) (e : PgxPool) (request : String)
    (call : Call) (body : σ → Res α × σ) (s : σ) :
    Call.traceData e.tracer request ∈ (traced d e request call body s).calls := by
  rcases traced_calls_cases d e request call body s with hc | ⟨cb, hc⟩ <;> rw [hc] <;> simp

/-- C8. When the installed hook's `TraceData` returns a callback, each of
`Exec`, `Query`, `QueryRow` and `SendBatch` makes exactly three calls in this
order: `TraceData` on the hook with the SQL text (the literal "batch" for
`SendBatch`), the statement on the resolved runner, and the returned callback,
whatever the runner's call did; so `TraceData` and the callback are each
invoked exactly once.  The world each of them leaves is the world after
`TraceData`, then after the runner's call, then after the callback, and its
outcome is the runner's outcome unless the callback panics.  `CopyFrom` makes
the runner's call only: its outcome and world are those of that call. -/
theorem instrumented_statement_calls {σ : Type} (d : Driver σ) (e : PgxPool)
    (ctx : Context) (sql : String) (args : List Arg) (b : Batch) (ident : Identifier)
    (cls : List String) (src : CopyFromSource) (s s1 sB : σ) (cb cbB : Callback)
    (hTrace : e.tracer.TraceData d sql s = (.ok cb, s1))
    (hTraceBatch : e.tracer.TraceData d "batch" s = (.ok cbB, sB)) :
    ((e.Exec d ctx sql args s).calls =
        [.traceData e.tracer sql, .exec (e.Runner ctx) ctx sql args, .callback cb] ∧
      traceDataCount (e.Exec d ctx sql args s).calls = 1 ∧
      callbackCount (e.Exec d ctx sql args s).calls = 1 ∧
      (e.Exec d ctx sql args s).st =
        (cb.invoke d (d.Exec (e.Runner ctx) ctx sql args s1).2).2 ∧
      (e.Exec d ctx sql args s).res =
        afterDeferred (d.Exec (e.Runner ctx) ctx sql args s1).1
          (cb.invoke d (d.Exec (e.Runner ctx) ctx sql args s1).2).1) ∧
    ((e.Query d ctx sql args s).calls =
        [.traceData e.tracer sql, .query (e.Runner ctx) ctx sql args, .callback cb] ∧
      traceDataCount (e.Query d ctx sql args s).calls = 1 ∧
      callbackCount (e.Query d ctx sql args s).calls = 1 ∧
      (e.Query d ctx sql args s).st =
        (cb.invoke d (d.Query (e.Runner ctx) ctx sql args s1).2).2 ∧
      (e.Query d ctx sql args s).res =
        afterDeferred (d.Query (e.Runner ctx) ctx sql args s1).1
          (cb.invoke d (d.Query (e.Runner ctx) ctx sql args s1).2).1) ∧
    ((e.QueryRow d ctx sql args s).calls =
        [.traceData e.tracer sql, .queryRow (e.Runner ctx) ctx sql args, .callback cb] ∧
      traceDataCount (e.QueryRow d ctx sql args s).calls = 1 ∧
      callbackCount (e.QueryRow d ctx sql args s).calls = 1 ∧
      (e.QueryRow d ctx sql args s).st =
        (cb.invoke d (d.QueryRow (e.Runner ctx) ctx sql args s1).2).2 ∧
      (e.QueryRow d ctx sql args s).res =
        afterDeferred (d.QueryRow (e.Runner ctx) ctx sql args s1).1
          (cb.invoke d (d.QueryRow (e.Runner ctx) ctx sql args s1).2).1) ∧
    ((e.SendBatch d ctx b s).calls =
        [.traceData e.tracer "batch", .sendBatch (e.Runner ctx) ctx b, .callback cbB] ∧
      traceDataCount (e.SendBatch d ctx b s).calls = 1 ∧
      callbackCount (e.SendBatch d ctx b s).calls = 1 ∧
      (e.SendBatch d ctx b s).st =
        (cbB.invoke d (d.SendBatch (e.Runner ctx) ctx b sB).2).2 ∧
      (e.SendBatch d ctx b s).res =
        afterDeferred (d.SendBatch (e.Runner ctx) ctx b sB).1
          (cbB.invoke d (d.SendBatch (e.Runner ctx) ctx b sB).2).1) ∧
    ((e.CopyFrom d ctx ident cls src s).calls =
        [.copyFrom (e.Runner ctx) ctx ident cls src] ∧
      traceDataCount (e.CopyFrom d ctx ident cls src s).calls = 0 ∧
      callbackCount (e.CopyFrom d ctx ident cls src s).calls = 0 ∧
      (e.CopyFrom d ctx ident cls src s).st =
        (d.CopyFrom (e.Runner ctx) ctx ident cls src s).2 ∧
      (e.CopyFrom d ctx ident cls src s).res =
        (d.CopyFrom (e.Runner ctx) ctx ident cls src s).1) := by
  have hE := traced_calls d e sql (.exec (e.Runner ctx) ctx sql args)
    (d.Exec (e.Runner ctx) ctx sql args) s s1 cb hTrace
  have hQ := traced_calls d e sql (.query (e.Runner ctx) ctx sql args)
    (d.Query (e.Runner ctx) ctx sql args) s s1 cb hTrace
  have hR := traced_calls d e sql (.queryRow (e.Runner ctx) ctx sql args)
    (d.QueryRow (e.Runner ctx) ctx sql args) s s1 cb hTrace
  have hB := traced_calls d e "batch" (.sendBatch (e.Runner ctx) ctx b)
    (d.SendBatch (e.Runner ctx) ctx b) s sB cbB hTraceBatch
  have rE := traced_run d e sql (.exec (e.Runner ctx) ctx sql args)
    (d.Exec (e.Runner ctx) ctx sql args) s s1 cb hTrace
  have rQ := traced_run d e sql (.query (e.Runner ctx) ctx sql args)
    (d.Query (e.Runner ctx) ctx sql args) s s1 cb hTrace
  have rR := traced_run d e sql (.queryRow (e.Runner ctx) ctx sql args)
    (d.QueryRow (e.Runner ctx) ctx sql args) s s1 cb hTrace
  have rB := traced_run d e "batch" (.sendBatch (e.Runner ctx) ctx b)
    (d.SendBatch (e.Runner ctx) ctx b) s sB cbB hTraceBatch
  refine ⟨⟨?_, ?_, ?_, rE.1, rE.2⟩, ⟨?_, ?_, ?_, rQ.1, rQ.2⟩, ⟨?_, ?_, ?_, rR.1, rR.2⟩,
    ⟨?_, ?_, ?_, rB.1, rB.2⟩, ⟨rfl, ?_, ?_, rfl, rfl⟩⟩
  · exact hE
  · simp only [PgxPool.Exec, hE]; simp [traceDataCount]
  · simp only [PgxPool.Exec, hE]; simp [callbackCount]
  · exact hQ
  · simp only [PgxPool.Query, hQ]; simp [traceDataCount]
  · simp only [PgxPool.Query, hQ]; simp [callbackCount]
  · exact hR
  · simp only [PgxPool.QueryRow, hR]; simp [traceDataCount]
  · simp only [PgxPool.QueryRow, hR]; simp [callbackCount]
  · exact hB
  · simp only [PgxPool.SendBatch, hB]; simp [traceDataCount]
  · simp only [PgxPool.SendBatch, hB]; simp [callbackCount]
  · simp [PgxPool.CopyFrom, traceDataCount]
  · simp [PgxPool.CopyFrom, callbackCount]

theorem instrumented_statement_calls_witness :
    ((NewPgxPool ⟨0⟩).WithTracer (.ext 3)).tracer.TraceData
        (memDriver ⟨none, none, none, some "select boom"⟩) "select boom" World.empty =
      (.ok (.ext 3), ⟨1, false, [], [], [(3, "select boom")], []⟩) ∧
    (((NewPgxPool ⟨0⟩).WithTracer (.ext 3)).Exec
        (memDriver ⟨none, none, none, some "select boom"⟩) testCtx "select boom" []
        World.empty).res = .ok (0, some (.other 23505)) ∧
    (((NewPgxPool ⟨0⟩).WithTracer (.ext 3)).Exec
        (memDriver ⟨none, none, none, some "select boom"⟩) testCtx "select boom" []
        World.empty).st = ⟨1, false, [], [], [(3, "select boom")], [3]⟩ ∧
    (((NewPgxPool ⟨0⟩).WithTracer (.ext 3)).Exec
        (memDriver ⟨none, none, none, some "select boom"⟩) testCtx "select boom" []
        World.empty).calls =
      [.traceData (.ext 3) "select boom", .exec (.pool ⟨0⟩) testCtx "select boom" [],
        .callback (.ext 3)] :=
  ⟨rfl, rfl, rfl,
   (instrumented_statement_calls (memDriver ⟨none, none, none, some "select boom"⟩)
      ((NewPgxPool ⟨0⟩).WithTracer (.ext 3)) testCtx "select boom" [] 0 ["t"] ["c"] 0
      World.empty ⟨1, false, [], [], [(3, "select boom")], []⟩
      ⟨1, false, [], [], [(3, "batch")], []⟩ (.ext 3) (.ext 3) rfl rfl).1.1⟩


/-- C10. `NewPgxPool p` has the nil tracer as its hook, whose `TraceData`
returns at once a callback that changes nothing when invoked, so a statement
of that executor has the outcome and leaves the world of the runner's call
alone; `Pool()` is `p`.  After `WithTracer t1` and then `WithTracer t2` the
hook is `t2` and `Pool()` is still `p`; every `TraceData` call made by `Exec`,
`Query`, `QueryRow` and `SendBatch` is then made on `t2`, and each of them does
call `t2.TraceData`: the runner's call starts from the world `t2.TraceData`
left, the callback `t2` returned runs on the world the runner's call left, and
a panic of `t2.TraceData` is the statement's outcome. -/
theorem NewPgxPool_WithTracer_last_wins {σ : Type} (d : Driver σ) (p : Pool)
    (t1 t2 : Tracer) (ctx : Context) (sql : String) (args : List Arg) (b : Batch)
    (s : σ) :
    (NewPgxPool p).tracer = NewNilTracer ∧
    (∀ (request : String) (w : σ), ∃ cb,
      (NewPgxPool p).tracer.TraceData d request w = (.ok cb, w) ∧
      ∀ w0 : σ, cb.invoke d w0 = (.ok (), w0)) ∧
    (NewPgxPool p).Pool = p ∧
    ((NewPgxPool p).WithTracer t1).Pool = p ∧
    (((NewPgxPool p).WithTracer t1).WithTracer t2).Pool = p ∧
    (((NewPgxPool p).WithTracer t1).WithTracer t2).tracer = t2 ∧
    (Call.traceData t2 sql ∈
        ((((NewPgxPool p).WithTracer t1).WithTracer t2).Exec d ctx sql args s).calls ∧
      ∀ t r, Call.traceData t r ∈
        ((((NewPgxPool p).WithTracer t1).WithTracer t2).Exec d ctx sql args s).calls →
        t = t2) ∧
    (Call.traceData t2 sql ∈
        ((((NewPgxPool p).WithTracer t1).WithTracer t2).Query d ctx sql args s).calls ∧
      ∀ t r, Call.traceData t r ∈
        ((((NewPgxPool p).WithTracer t1).WithTracer t2).Query d ctx sql args s).calls →
        t = t2) ∧
    (Call.traceData t2 sql ∈
        ((((NewPgxPool p).WithTracer t1).WithTracer t2).QueryRow d ctx sql args s).calls ∧
      ∀ t r, Call.traceData t r ∈
        ((((NewPgxPool p).WithTracer t1).WithTracer t2).QueryRow d ctx sql args s).calls →
        t = t2) ∧
    (Call.traceData t2 "batch" ∈
        ((((NewPgxPool p).WithTracer t1).WithTracer t2).SendBatch d ctx b s).calls ∧
      ∀ t r, Call.traceData t r ∈
        ((((NewPgxPool p).WithTracer t1).WithTracer t2).SendBatch d ctx b s).calls →
        t = t2) ∧
    (((NewPgxPool p).Exec d ctx sql args s).res = (d.Exec ((NewPgxPool p).Runner ctx) ctx sql args s).1 ∧
      ((NewPgxPool p).Exec d ctx sql args s).st = (d.Exec ((NewPgxPool p).Runner ctx) ctx sql args s).2) ∧
    (((NewPgxPool p).Query d ctx sql args s).res = (d.Query ((NewPgxPool p).Runner ctx) ctx sql args s).1 ∧
      ((NewPgxPool p).Query d ctx sql args s).st = (d.Query ((NewPgxPool p).Runner ctx) ctx sql args s).2) ∧
    (((NewPgxPool p).QueryRow d ctx sql args s).res = (d.QueryRow ((NewPgxPool p).Runner ctx) ctx sql args s).1 ∧
      ((NewPgxPool p).QueryRow d ctx sql args s).st = (d.QueryRow ((NewPgxPool p).Runner ctx) ctx sql args s).2) ∧
    (((NewPgxPool p).SendBatch d ctx b s).res = (d.SendBatch ((NewPgxPool p).Runner ctx) ctx b s).1 ∧
      ((NewPgxPool p).SendBatch d ctx b s).st = (d.SendBatch ((NewPgxPool p).Runner ctx) ctx b s).2) ∧
    (∀ cb s1, t2.TraceData d sql s = (.ok cb, s1) →
      (((((NewPgxPool p).WithTracer t1).WithTracer t2).Exec d ctx sql args s).calls =
          [.traceData t2 sql, .exec ((((NewPgxPool p).WithTracer t1).WithTracer t2).Runner ctx) ctx sql args, .callback cb] ∧
        ((((NewPgxPool p).WithTracer t1).WithTracer t2).Exec d ctx sql args s).st =
          (cb.invoke d (d.Exec ((((NewPgxPool p).WithTracer t1).WithTracer t2).Runner ctx) ctx sql args s1).2).2 ∧
        ((((NewPgxPool p).WithTracer t1).WithTracer t2).Exec d ctx sql args s).res =
          afterDeferred (d.Exec ((((NewPgxPool p).WithTracer t1).WithTracer t2).Runner ctx) ctx sql args s1).1
            (cb.invoke d (d.Exec ((((NewPgxPool p).WithTracer t1).WithTracer t2).Runner ctx) ctx sql args s1).2).1) ∧
      (((((NewPgxPool p).WithTracer t1).WithTracer t2).Query d ctx sql args s).calls =
          [.traceData t2 sql, .query ((((NewPgxPool p).WithTracer t1).WithTracer t2).Runner ctx) ctx sql args, .callback cb] ∧
        ((((NewPgxPool p).WithTracer t1).WithTracer t2).Query d ctx sql args s).st =
          (cb.invoke d (d.Query ((((NewPgxPool p).WithTracer t1).WithTracer t2).Runner ctx) ctx sql args s1).2).2 ∧
        ((((NewPgxPool p).WithTracer t1).WithTracer t2).Query d ctx sql args s).res =
          afterDeferred (d.Query ((((NewPgxPool p).WithTracer t1).WithTracer t2).Runner ctx) ctx sql args s1).1
            (cb.invoke d (d.Query ((((NewPgxPool p).WithTracer t1).WithTracer t2).Runner ctx) ctx sql args s1).2).1) ∧
      (((((NewPgxPool p).WithTracer t1).WithTracer t2).QueryRow d ctx sql args s).calls =
          [.traceData t2 sql, .queryRow ((((NewPgxPool p).WithTracer t1).WithTracer t2).Runner ctx) ctx sql args, .callback cb] ∧
        ((((NewPgxPool p).WithTracer t1).WithTracer t2).QueryRow d ctx sql args s).st =
          (cb.invoke d (d.QueryRow ((((NewPgxPool p).WithTracer t1).WithTracer t2).Runner ctx) ctx sql args s1).2).2 ∧
        ((((NewPgxPool p).WithTracer t1).WithTracer t2).QueryRow d ctx sql args s).res =
          afterDeferred (d.QueryRow ((((NewPgxPool p).WithTracer t1).WithTracer t2).Runner ctx) ctx sql args s1).1
            (cb.invoke d (d.QueryRow ((((NewPgxPool p).WithTracer t1).WithTracer t2).Runner ctx) ctx sql args s1).2).1)) ∧
    (∀ cb s1, t2.TraceData d "batch" s = (.ok cb, s1) →
      (((((NewPgxPool p).WithTracer t1).WithTracer t2).SendBatch d ctx b s).calls =
          [.traceData t2 "batch", .sendBatch ((((NewPgxPool p).WithTracer t1).WithTracer t2).Runner ctx) ctx b, .callback cb] ∧
        ((((NewPgxPool p).WithTracer t1).WithTracer t2).SendBatch d ctx b s).st =
          (cb.invoke d (d.SendBatch ((((NewPgxPool p).WithTracer t1).WithTracer t2).Runner ctx) ctx b s1).2).2 ∧
        ((((NewPgxPool p).WithTracer t1).WithTracer t2).SendBatch d ctx b s).res =
          afterDeferred (d.SendBatch ((((NewPgxPool p).WithTracer t1).WithTracer t2).Runner ctx) ctx b s1).1
            (cb.invoke d (d.SendBatch ((((NewPgxPool p).WithTracer t1).WithTracer t2).Runner ctx) ctx b s1).2).1)) ∧
    (∀ v s1, t2.TraceData d sql s = (.panic v, s1) →
      (((((NewPgxPool p).WithTracer t1).WithTracer t2).Exec d ctx sql args s).res = .panic v ∧
        ((((NewPgxPool p).WithTracer t1).WithTracer t2).Exec d ctx sql args s).st = s1) ∧
      (((((NewPgxPool p).WithTracer t1).WithTracer t2).Query d ctx sql args s).res = .panic v ∧
        ((((NewPgxPool p).WithTracer t1).WithTracer t2).Query d ctx sql args s).st = s1) ∧
      (((((NewPgxPool p).WithTracer t1).WithTracer t2).QueryRow d ctx sql args s).res = .panic v ∧
        ((((NewPgxPool p).WithTracer t1).WithTracer t2).QueryRow d ctx sql args s).st = s1)) ∧
    (∀ v s1, t2.TraceData d "batch" s = (.panic v, s1) →
      (((((NewPgxPool p).WithTracer t1).WithTracer t2).SendBatch d ctx b s).res = .panic v ∧
        ((((NewPgxPool p).WithTracer t1).WithTracer t2).SendBatch d ctx b s).st = s1)) := by
  refine ⟨rfl, ?_, rfl, rfl, rfl, rfl, ⟨?_, ?_⟩, ⟨?_, ?_⟩, ⟨?_, ?_⟩, ⟨?_, ?_⟩, ?_, ?_, ?_, ?_,
    ?_, ?_, ?_, ?_⟩
  · intro request w
    exact ⟨.noop, rfl, fun _ => rfl⟩
  · exact traced_head d _ sql _ _ s
  · intro t r hm
    exact (traced_traceData_mem d _ sql _ _ s (by intro _ _ hh; cases hh) t r hm).1
  · exact traced_head d _ sql _ _ s
  · intro t r hm
    exact (traced_traceData_mem d _ sql _ _ s (by intro _ _ hh; cases hh) t r hm).1
  · exact traced_head d _ sql _ _ s
  · intro t r hm
    exact (traced_traceData_mem d _ sql _ _ s (by intro _ _ hh; cases hh) t r hm).1
  · exact traced_head d _ "batch" _ _ s
  · intro t r hm
    exact (traced_traceData_mem d _ "batch" _ _ s (by intro _ _ hh; cases hh) t r hm).1
  · exact traced_nilTracer d p sql _ _ s
  · exact traced_nilTracer d p sql _ _ s
  · exact traced_nilTracer d p sql _ _ s
  · exact traced_nilTracer d p "batch" _ _ s
  · intro cb s1 hT
    exact ⟨⟨traced_calls d _ sql _ _ s s1 cb hT, traced_run d _ sql _ _ s s1 cb hT⟩,
      ⟨traced_calls d _ sql _ _ s s1 cb hT, traced_run d _ sql _ _ s s1 cb hT⟩,
      ⟨traced_calls d _ sql _ _ s s1 cb hT, traced_run d _ sql _ _ s s1 cb hT⟩⟩
  · intro cb s1 hT
    exact ⟨traced_calls d _ "batch" _ _ s s1 cb hT, traced_run d _ "batch" _ _ s s1 cb hT⟩
  · intro v s1 hT
    exact ⟨⟨(traced_panics d _ sql _ _ s s1 v hT).1, (traced_panics d _ sql _ _ s s1 v hT).2.1⟩,
      ⟨(traced_panics d _ sql _ _ s s1 v hT).1, (traced_panics d _ sql _ _ s s1 v hT).2.1⟩,
      ⟨(traced_panics d _ sql _ _ s s1 v hT).1, (traced_panics d _ sql _ _ s s1 v hT).2.1⟩⟩
  · intro v s1 hT
    exact ⟨(traced_panics d _ "batch" _ _ s s1 v hT).1,
      (traced_panics d _ "batch" _ _ s s1 v hT).2.1⟩

theorem NewPgxPool_WithTracer_last_wins_witness :
    (.ext 3 : Tracer).TraceData (memDriver Faults.none) "select 1" World.empty =
      (.ok (.ext 3), ⟨1, false, [], [], [(3, "select 1")], []⟩) ∧
    ((((NewPgxPool ⟨0⟩).WithTracer (.ext 1)).WithTracer (.ext 3)).Exec
        (memDriver Faults.none) testCtx "select 1" [] World.empty).calls =
      [.traceData (.ext 3) "select 1", .exec (.pool ⟨0⟩) testCtx "select 1" [],
        .callback (.ext 3)] ∧
    ((((NewPgxPool ⟨0⟩).WithTracer (.ext 1)).WithTracer (.ext 3)).Exec
        (memDriver Faults.none) testCtx "select 1" [] World.empty).st =
      ⟨1, false, [], [("select 1", [])], [(3, "select 1")], [3]⟩ :=
  ⟨rfl,
   ((NewPgxPool_WithTracer_last_wins (memDriver Faults.none) ⟨0⟩ (.ext 1) (.ext 3) testCtx
      "select 1" [] 0 World.empty).2.2.2.2.2.2.2.2.2.2.2.2.2.2.1 (.ext 3)
      ⟨1, false, [], [], [(3, "select 1")], []⟩ rfl).1.1,
   rfl⟩

end PgxTransactor
